import Mathlib

/-!
# Verification of the LinguistAssist execution core

This file gives a shallow embedding, in Lean 4, of the core components of the
LinguistAssist GUI-automation agent (`src/linguist_assist.py`) and proves
properties of them:

* `CoordinateMapper.normalize_to_pixels` (lines 33-85) — pure coordinate
  arithmetic, embedded over `ℚ` with Python's `int()` truncation modeled
  exactly (`pyInt`).
* `_extract_json_from_response` (lines 236-326) — the five-strategy response
  parser, embedded with an executable JSON parser (`jsonLoads`) standing for
  Python's `json.loads`, executable scanners for the regex strategies, and the
  final `ValueError` carrying the first 200 characters of the text.
* `detect_element` (lines 328-400) — the bounded-retry element-detection
  call, with the model's raw textual responses supplied by an environment.
* the `screencapture` subprocess fallback of `capture_screenshot`
  (lines 204-234) — modeled as a function from the possible outcomes of the
  subprocess call and the image read-back to a trace of file-system events.
* `execute_task` (lines 438-848) — the autonomous execution loop, embedded as
  a step function on an explicit agent state.  The external collaborators
  (screen capture, the planning model together with the planning-response
  parsing, element detection, the random click jitter, and the reachability
  of the GUI action service) are supplied by an `Env` of oracles; all input
  side effects are recorded in a trace of `Event`s.

Machine reals: the Python code computes on IEEE floats.  All values involved
here are small, and every theorem below either holds for any intermediate
value (the final clamps decide the bounds) or is exact rational arithmetic on
values that floats represent exactly in the ranges used, so ℚ is a faithful
model for these properties.
-/

/- The Batteries implementations of the rational operations are marked
irreducible, which blocks elaborator-side evaluation (`decide`, `rfl`) of the
executable definitions below on concrete inputs; re-enable unfolding. -/
unseal Rat.add Rat.mul Rat.sub Rat.inv Rat.ofScientific

/-! ## Python primitives -/

/-- Python `int()` on a rational: truncation toward zero.
`Int.tdiv` is Lean's truncating division, and `q.den > 0`, so
`q.num.tdiv q.den` truncates `q` toward zero exactly like Python `int()`. -/
def pyInt (q : ℚ) : ℤ := q.num.tdiv q.den

/-- The characters Python `str.strip()` removes (ASCII whitespace). -/
def pyWhitespace (c : Char) : Bool :=
  c = ' ' || c = '\t' || c = '\n' || c = '\r' || c = '\x0b' || c = '\x0c'

/-- Python `str.strip()` on the underlying character list. -/
def pyStripChars (cs : List Char) : List Char :=
  ((cs.dropWhile pyWhitespace).reverse.dropWhile pyWhitespace).reverse

/-- Python `str.strip()`. -/
def pyStrip (s : String) : String := ⟨pyStripChars s.data⟩

/-- Python slicing `s[:n]`. -/
def pyTake (s : String) (n : ℕ) : String := ⟨s.data.take n⟩

/-! ## CoordinateMapper (`linguist_assist.py` lines 25-85)

`normalize_to_pixels(normalized_y, normalized_x, screenshot_width,
screenshot_height)` with the instance state `logical_width`/`logical_height`
passed explicitly.  The two screenshot dimensions are optional in the source
(defaulting to the logical size), which the `Option ℕ` arguments mirror. -/

/-- The clamp `max(0, min(v, 1000))` applied to out-of-range normalized
coordinates (source lines 53-58). -/
def clampNorm (v : ℚ) : ℚ := max 0 (min v 1000)

/-- `CoordinateMapper.normalize_to_pixels` (source lines 33-85). -/
def normalize_to_pixels (logical_width logical_height : ℕ)
    (normalized_y normalized_x : ℚ)
    (screenshot_width screenshot_height : Option ℕ) : ℤ × ℤ :=
  -- Validate normalized coordinates (clamping, lines 53-58)
  let nx := clampNorm normalized_x
  let ny := clampNorm normalized_y
  -- Use screenshot dimensions if provided, otherwise logical size (61-64)
  let sw : ℕ := screenshot_width.getD logical_width
  let sh : ℕ := screenshot_height.getD logical_height
  -- Convert normalized coordinates to screenshot pixel coordinates (67-68)
  let screenshot_x : ℚ := nx / 1000 * sw
  let screenshot_y : ℚ := ny / 1000 * sh
  -- Scale factors (71-72)
  let scale_x : ℚ := if 0 < logical_width then (sw : ℚ) / logical_width else 1
  let scale_y : ℚ := if 0 < logical_height then (sh : ℚ) / logical_height else 1
  -- Convert to logical coordinates, Python int() truncation (76-77)
  let pixel_x : ℤ := pyInt (screenshot_x / scale_x)
  let pixel_y : ℤ := pyInt (screenshot_y / scale_y)
  -- Clamp into logical screen bounds (80-81)
  (max 0 (min pixel_x ((logical_width : ℤ) - 1)),
   max 0 (min pixel_y ((logical_height : ℤ) - 1)))

lemma clampNorm_nonneg (v : ℚ) : 0 ≤ clampNorm v := le_max_left 0 _

lemma clampNorm_le_1000 (v : ℚ) : clampNorm v ≤ 1000 :=
  max_le (by norm_num) (min_le_right v 1000)

lemma clampNorm_of_gt (v : ℚ) (h : 1000 < v) : clampNorm v = 1000 := by
  unfold clampNorm
  rw [min_eq_right h.le, max_eq_right (by norm_num)]

lemma clampNorm_of_lt (v : ℚ) (h : v < 0) : clampNorm v = 0 := by
  unfold clampNorm
  rw [max_eq_left (min_le_of_left_le h.le)]

lemma clampNorm_of_mem (v : ℚ) (h0 : 0 ≤ v) (h1 : v ≤ 1000) : clampNorm v = v := by
  unfold clampNorm
  rw [min_eq_left h1, max_eq_right h0]

/-- The clamp is idempotent. -/
lemma clampNorm_idem (v : ℚ) : clampNorm (clampNorm v) = clampNorm v :=
  clampNorm_of_mem _ (clampNorm_nonneg v) (clampNorm_le_1000 v)

/-- `pyInt` of a natural number cast is that number. -/
lemma pyInt_natCast (n : ℕ) : pyInt (n : ℚ) = n := by
  unfold pyInt
  rw [Rat.num_natCast, Rat.den_natCast]
  exact Int.tdiv_one _

/-- C3 -- For every normalized pair (y, x) with both values in [0, 1000] and
any positive screenshot and logical dimensions,
`CoordinateMapper.normalize_to_pixels` returns integer coordinates
(pixel_x, pixel_y) with 0 ≤ pixel_x ≤ logical_width - 1 and
0 ≤ pixel_y ≤ logical_height - 1. -/
theorem normalize_to_pixels_in_bounds
    (lw lh sw sh : ℕ) (ny nx : ℚ)
    (hlw : 0 < lw) (hlh : 0 < lh) (hsw : 0 < sw) (hsh : 0 < sh)
    (hy0 : 0 ≤ ny) (hy1 : ny ≤ 1000) (hx0 : 0 ≤ nx) (hx1 : nx ≤ 1000) :
    0 ≤ (normalize_to_pixels lw lh ny nx (some sw) (some sh)).1 ∧
    (normalize_to_pixels lw lh ny nx (some sw) (some sh)).1 ≤ (lw : ℤ) - 1 ∧
    0 ≤ (normalize_to_pixels lw lh ny nx (some sw) (some sh)).2 ∧
    (normalize_to_pixels lw lh ny nx (some sw) (some sh)).2 ≤ (lh : ℤ) - 1 := by
  unfold normalize_to_pixels
  simp only
  refine ⟨le_max_left 0 _, max_le ?_ (min_le_right _ _),
    le_max_left 0 _, max_le ?_ (min_le_right _ _)⟩
  · have : (1 : ℤ) ≤ (lw : ℤ) := by exact_mod_cast hlw
    omega
  · have : (1 : ℤ) ≤ (lh : ℤ) := by exact_mod_cast hlh
    omega

/-- Witness for C3 at a concrete input. -/
theorem normalize_to_pixels_in_bounds_witness :
    0 ≤ (normalize_to_pixels 1440 900 500 500 (some 2880) (some 1800)).1 ∧
    (normalize_to_pixels 1440 900 500 500 (some 2880) (some 1800)).1 ≤ (1440 : ℤ) - 1 ∧
    0 ≤ (normalize_to_pixels 1440 900 500 500 (some 2880) (some 1800)).2 ∧
    (normalize_to_pixels 1440 900 500 500 (some 2880) (some 1800)).2 ≤ (900 : ℤ) - 1 :=
  normalize_to_pixels_in_bounds 1440 900 2880 1800 500 500
    (by norm_num) (by norm_num) (by norm_num) (by norm_num)
    (by norm_num) (by norm_num) (by norm_num) (by norm_num)

/-- C4 -- For every normalized input (y, x) outside [0, 1000],
`normalize_to_pixels` does not raise (it is total here): it clamps each
out-of-range value before the geometry is computed, values above 1000 going
to 1000 (the maximum edge) and values below 0 going to 0 (the minimum edge),
so the result equals the result for the clamped input. -/
theorem normalize_to_pixels_clamps
    (lw lh sw sh : ℕ) (ny nx : ℚ)
    (hlw : 0 < lw) (hlh : 0 < lh) (hsw : 0 < sw) (hsh : 0 < sh) :
    normalize_to_pixels lw lh ny nx (some sw) (some sh) =
      normalize_to_pixels lw lh (clampNorm ny) (clampNorm nx) (some sw) (some sh) ∧
    (1000 < nx → (normalize_to_pixels lw lh ny nx (some sw) (some sh)).1 = (lw : ℤ) - 1) ∧
    (nx < 0 → (normalize_to_pixels lw lh ny nx (some sw) (some sh)).1 = 0) ∧
    (1000 < ny → (normalize_to_pixels lw lh ny nx (some sw) (some sh)).2 = (lh : ℤ) - 1) ∧
    (ny < 0 → (normalize_to_pixels lw lh ny nx (some sw) (some sh)).2 = 0) := by
  have hswq : (0 : ℚ) < sw := by exact_mod_cast hsw
  have hshq : (0 : ℚ) < sh := by exact_mod_cast hsh
  have hlwq : (0 : ℚ) < lw := by exact_mod_cast hlw
  have hlhq : (0 : ℚ) < lh := by exact_mod_cast hlh
  have hmaxx : clampNorm (1000 : ℚ) / 1000 * sw / ((sw : ℚ) / lw) = (lw : ℚ) := by
    rw [clampNorm_of_mem 1000 (by norm_num) le_rfl]
    field_simp
  have hmaxy : clampNorm (1000 : ℚ) / 1000 * sh / ((sh : ℚ) / lh) = (lh : ℚ) := by
    rw [clampNorm_of_mem 1000 (by norm_num) le_rfl]
    field_simp
  refine ⟨?_, ?_, ?_, ?_, ?_⟩
  · unfold normalize_to_pixels
    rw [clampNorm_idem, clampNorm_idem]
  · intro hx
    unfold normalize_to_pixels
    simp only [if_pos hlw, Option.getD_some]
    rw [show clampNorm nx = clampNorm 1000 by
        rw [clampNorm_of_gt nx hx, clampNorm_of_mem 1000 (by norm_num) le_rfl]]
    rw [hmaxx, pyInt_natCast]
    have h1 : (1 : ℤ) ≤ (lw : ℤ) := by exact_mod_cast hlw
    omega
  · intro hx
    unfold normalize_to_pixels
    simp only [if_pos hlw, Option.getD_some]
    rw [clampNorm_of_lt nx hx]
    norm_num [pyInt]
  · intro hy
    unfold normalize_to_pixels
    simp only [if_pos hlh, Option.getD_some]
    rw [show clampNorm ny = clampNorm 1000 by
        rw [clampNorm_of_gt ny hy, clampNorm_of_mem 1000 (by norm_num) le_rfl]]
    rw [hmaxy, pyInt_natCast]
    have h1 : (1 : ℤ) ≤ (lh : ℤ) := by exact_mod_cast hlh
    omega
  · intro hy
    unfold normalize_to_pixels
    simp only [if_pos hlh, Option.getD_some]
    rw [clampNorm_of_lt ny hy]
    norm_num [pyInt]

/-- Witness for C4 at a concrete out-of-range input. -/
theorem normalize_to_pixels_clamps_witness :
    (normalize_to_pixels 1000 1000 (-5) 1200 (some 1000) (some 1000) =
      normalize_to_pixels 1000 1000 (clampNorm (-5)) (clampNorm 1200)
        (some 1000) (some 1000)) ∧
    (normalize_to_pixels 1000 1000 (-5) 1200 (some 1000) (some 1000)).1 = (1000 : ℤ) - 1 ∧
    (normalize_to_pixels 1000 1000 (-5) 1200 (some 1000) (some 1000)).2 = 0 := by
  have h := normalize_to_pixels_clamps 1000 1000 1000 1000 (-5) 1200
    (by norm_num) (by norm_num) (by norm_num) (by norm_num)
  exact ⟨h.1, h.2.1 (by norm_num), h.2.2.2.2 (by norm_num)⟩

/-! ## JSON values and `json.loads`

An executable model of the subset of Python's `json.loads` behaviour that
`_extract_json_from_response` relies on: strict JSON values, failing (returning
`none`) on any trailing non-whitespace, malformed escape, or trailing comma.
Recursion is bounded by an explicit fuel, always called with more fuel than the
input length can consume. -/

inductive Js where
  | null
  | bool (b : Bool)
  | num (q : ℚ)
  | str (s : String)
  | arr (elems : List Js)
  | obj (fields : List (String × Js))

/-- JSON insignificant whitespace. -/
def jsonWs (c : Char) : Bool := c = ' ' || c = '\t' || c = '\n' || c = '\r'

def skipJsonWs : List Char → List Char
  | [] => []
  | c :: cs => if jsonWs c then skipJsonWs cs else c :: cs

/-- Split a leading digit run from the rest. -/
def takeDigits : List Char → List Char × List Char
  | [] => ([], [])
  | c :: cs =>
    if c.isDigit then
      let p := takeDigits cs
      (c :: p.1, p.2)
    else ([], c :: cs)

def digitsToNat (ds : List Char) : ℕ :=
  ds.foldl (fun a c => a * 10 + (c.toNat - 48)) 0

/-- Exponent suffix of a JSON number: optional sign then digits, as a
rational multiplier. -/
def expDigits (t : List Char) : Option (ℚ × List Char) :=
  let s : ℤ × List Char :=
    match t with
    | '+' :: r => (1, r)
    | '-' :: r => (-1, r)
    | _ => (1, t)
  let p := takeDigits s.2
  if p.1.isEmpty then none
  else
    let e := digitsToNat p.1
    some (if s.1 = -1 then ((10 : ℚ) ^ e)⁻¹ else (10 : ℚ) ^ e, p.2)

/-- A JSON number at the head of the input. -/
def parseJsonNumber (cs : List Char) : Option (ℚ × List Char) :=
  let signed : Bool × List Char :=
    match cs with
    | '-' :: t => (true, t)
    | _ => (false, cs)
  let p := takeDigits signed.2
  if p.1.isEmpty then none
  else
    let ipart : ℚ := (digitsToNat p.1 : ℕ)
    let fr : ℚ × List Char :=
      match p.2 with
      | '.' :: t =>
        let f := takeDigits t
        if f.1.isEmpty then (0, p.2)
        else ((digitsToNat f.1 : ℚ) / (10 : ℚ) ^ f.1.length, f.2)
      | _ => (0, p.2)
    let ex : ℚ × List Char :=
      match fr.2 with
      | c :: t =>
        if c = 'e' ∨ c = 'E' then
          match expDigits t with
          | some (m, r) => (m, r)
          | none => (1, fr.2)
        else (1, fr.2)
      | [] => (1, fr.2)
    let v := (ipart + fr.1) * ex.1
    some (if signed.1 then -v else v, ex.2)

def hexDigitVal (c : Char) : Option ℕ :=
  if c.isDigit then some (c.toNat - 48)
  else if 'a' ≤ c ∧ c ≤ 'f' then some (c.toNat - 87)
  else if 'A' ≤ c ∧ c ≤ 'F' then some (c.toNat - 55)
  else none

/-- A JSON string body (the opening quote already consumed), with the
standard escapes (lone surrogates are out of modeled scope). -/
def parseJsonStringAux : List Char → List Char → Option (String × List Char)
  | [], _ => none
  | c :: cs, acc =>
    if c = '"' then some (⟨acc.reverse⟩, cs)
    else if c = '\\' then
      match cs with
      | [] => none
      | e :: cs2 =>
        if e = '"' then parseJsonStringAux cs2 ('"' :: acc)
        else if e = '\\' then parseJsonStringAux cs2 ('\\' :: acc)
        else if e = '/' then parseJsonStringAux cs2 ('/' :: acc)
        else if e = 'b' then parseJsonStringAux cs2 ('\x08' :: acc)
        else if e = 'f' then parseJsonStringAux cs2 ('\x0c' :: acc)
        else if e = 'n' then parseJsonStringAux cs2 ('\n' :: acc)
        else if e = 'r' then parseJsonStringAux cs2 ('\r' :: acc)
        else if e = 't' then parseJsonStringAux cs2 ('\t' :: acc)
        else if e = 'u' then
          match cs2 with
          | h1 :: h2 :: h3 :: h4 :: r =>
            match hexDigitVal h1, hexDigitVal h2, hexDigitVal h3, hexDigitVal h4 with
            | some a, some b, some c3, some d =>
              parseJsonStringAux r (Char.ofNat (a * 4096 + b * 256 + c3 * 16 + d) :: acc)
            | _, _, _, _ => none
          | _ => none
        else none
    else parseJsonStringAux cs (c :: acc)

mutual

def parseJsonValue (fuel : ℕ) (cs : List Char) : Option (Js × List Char) :=
  match fuel with
  | 0 => none
  | fuel' + 1 =>
    match skipJsonWs cs with
    | [] => none
    | c :: rest =>
      if c = '\x7b' then parseJsonMembers fuel' (skipJsonWs rest) []
      else if c = '[' then parseJsonElems fuel' (skipJsonWs rest) []
      else if c = '"' then
        match parseJsonStringAux rest [] with
        | some (s, r) => some (.str s, r)
        | none => none
      else if c = 'n' then
        match rest with
        | 'u' :: 'l' :: 'l' :: r => some (.null, r)
        | _ => none
      else if c = 't' then
        match rest with
        | 'r' :: 'u' :: 'e' :: r => some (.bool true, r)
        | _ => none
      else if c = 'f' then
        match rest with
        | 'a' :: 'l' :: 's' :: 'e' :: r => some (.bool false, r)
        | _ => none
      else
        match parseJsonNumber (c :: rest) with
        | some (q, r) => some (.num q, r)
        | none => none

def parseJsonMembers (fuel : ℕ) (cs : List Char) (acc : List (String × Js)) :
    Option (Js × List Char) :=
  match fuel with
  | 0 => none
  | fuel' + 1 =>
    match cs with
    | '\x7d' :: r => if acc.isEmpty then some (.obj [], r) else none
    | '"' :: rest =>
      match parseJsonStringAux rest [] with
      | none => none
      | some (k, r1) =>
        match skipJsonWs r1 with
        | ':' :: r2 =>
          match parseJsonValue fuel' r2 with
          | none => none
          | some (v, r3) =>
            match skipJsonWs r3 with
            | ',' :: r4 => parseJsonMembers fuel' (skipJsonWs r4) (acc ++ [(k, v)])
            | '\x7d' :: r4 => some (.obj (acc ++ [(k, v)]), r4)
            | _ => none
        | _ => none
    | _ => none

def parseJsonElems (fuel : ℕ) (cs : List Char) (acc : List Js) :
    Option (Js × List Char) :=
  match fuel with
  | 0 => none
  | fuel' + 1 =>
    match cs with
    | ']' :: r => if acc.isEmpty then some (.arr [], r) else none
    | _ =>
      match parseJsonValue fuel' cs with
      | none => none
      | some (v, r1) =>
        match skipJsonWs r1 with
        | ',' :: r2 => parseJsonElems fuel' (skipJsonWs r2) (acc ++ [v])
        | ']' :: r2 => some (.arr (acc ++ [v]), r2)
        | _ => none

end

/-- Python `json.loads`: parse one value and require only whitespace after. -/
def jsonLoads (s : String) : Option Js :=
  match parseJsonValue (2 * s.data.length + 2) s.data with
  | some (v, rest) => if (skipJsonWs rest).isEmpty then some v else none
  | none => none

/-! ## `_extract_json_from_response` (`linguist_assist.py` lines 236-326)

The five parsing strategies.  The regex searches of strategies 4 and 5 are
modeled by executable scanners with the same match language; when several
start positions could match, all continuations are tried, so success/failure
agrees with the backtracking regex engine (only the choice of captured pair
among several viable ones could differ, which no property here depends on). -/

/-- Leftmost occurrence of `needle` in the remaining text (Python `str.find`),
as an index relative to the initial call. -/
def findSubAux (needle : List Char) : List Char → ℕ → Option ℕ
  | [], i => if needle.isEmpty then some i else none
  | c :: cs, i =>
    if needle.isPrefixOf (c :: cs) then some i else findSubAux needle cs (i + 1)

def findSub (hay needle : List Char) : Option ℕ := findSubAux needle hay 0

/-- Strategy 2a (lines 255-262): a triple-backtick block tagged `json`. -/
def strategy2_json (cs : List Char) : Option Js :=
  match findSub cs "```json".data with
  | none => none
  | some i =>
    let json_start := i + 7
    match findSub (cs.drop json_start) "```".data with
    | none => none
    | some j => jsonLoads (pyStrip ⟨(cs.drop json_start).take j⟩)

/-- Strategy 2b (lines 264-271): any triple-backtick block. -/
def strategy2_any (cs : List Char) : Option Js :=
  match findSub cs "```".data with
  | none => none
  | some i =>
    let json_start := i + 3
    match findSub (cs.drop json_start) "```".data with
    | none => none
    | some j => jsonLoads (pyStrip ⟨(cs.drop json_start).take j⟩)

/-- The balanced-brace walk of strategy 3 (lines 276-285): accumulate from the
first opening brace until the nesting count returns to zero. -/
def braceBalanceAux : List Char → ℕ → List Char → Option (List Char)
  | [], _, _ => none
  | c :: cs, depth, acc =>
    if c = '\x7b' then braceBalanceAux cs (depth + 1) (acc ++ [c])
    else if c = '\x7d' then
      if depth = 1 then some (acc ++ [c])
      else braceBalanceAux cs (depth - 1) (acc ++ [c])
    else braceBalanceAux cs depth (acc ++ [c])

/-- Strategy 3 (lines 273-292): strict-parse the first balanced
brace-delimited substring. -/
def strategy3 (cs : List Char) : Option Js :=
  match findSub cs ['\x7b'] with
  | none => none
  | some i =>
    match braceBalanceAux (cs.drop i) 0 [] with
    | none => none
    | some sub => jsonLoads ⟨sub⟩

/-- The whitespace class of the regex `\s`. -/
def reWs (c : Char) : Bool :=
  c = ' ' || c = '\t' || c = '\n' || c = '\r' || c = '\x0b' || c = '\x0c'

def skipReWs (cs : List Char) : List Char := cs.dropWhile reWs

/-- The regex piece `\d+(\.\d+)?` at the head of the input. -/
def matchRegexNum (cs : List Char) : Option (ℚ × List Char) :=
  let p := takeDigits cs
  if p.1.isEmpty then none
  else
    match p.2 with
    | '.' :: t =>
      let f := takeDigits t
      if f.1.isEmpty then some ((digitsToNat p.1 : ℕ), p.2)
      else some ((digitsToNat p.1 : ℚ) + (digitsToNat f.1 : ℚ) / (10 : ℚ) ^ f.1.length, f.2)
    | _ => some ((digitsToNat p.1 : ℕ), p.2)

/-- The regex piece `\[\s*(\d+(?:\.\d+)?)\s*,\s*(\d+(?:\.\d+)?)\s*\]` at the
head of the input, returning the two captures and the rest. -/
def matchPairAt (cs : List Char) : Option (ℚ × ℚ × List Char) :=
  match cs with
  | '[' :: t0 =>
    match matchRegexNum (skipReWs t0) with
    | none => none
    | some (y, t1) =>
      match skipReWs t1 with
      | ',' :: t2 =>
        match matchRegexNum (skipReWs t2) with
        | none => none
        | some (x, t3) =>
          match skipReWs t3 with
          | ']' :: t4 => some (y, x, t4)
          | _ => none
      | _ => none
  | _ => none

/-- Leftmost match of the bare coordinate pattern (strategy 5's
`re.search`). -/
def searchPair : List Char → Option (ℚ × ℚ)
  | [] => none
  | c :: cs =>
    match matchPairAt (c :: cs) with
    | some (y, x, _) => some (y, x)
    | none => searchPair cs

/-- Strategy 5 (lines 312-324): accept a bare two-number bracketed pair as a
point only when both numbers lie within [0, 1000]. -/
def strategy5 (cs : List Char) : Option Js :=
  match searchPair cs with
  | none => none
  | some (y, x) =>
    if 0 ≤ y ∧ y ≤ 1000 ∧ 0 ≤ x ∧ x ≤ 1000 then
      some (.obj [("point", .arr [.num y, .num x])])
    else none

/-- A character other than the two braces (the regex class `[^{}]`). -/
def notBrace (c : Char) : Bool := c ≠ '\x7b' && c ≠ '\x7d'

/-- Case-insensitive prefix test (the searches pass `re.IGNORECASE`). -/
def isPrefixCI (needle cs : List Char) : Bool :=
  (needle.map Char.toLower).isPrefixOf (cs.map Char.toLower)

/-- All continuations after an occurrence of `key` reachable across
non-brace characters (the `[^{}]*key` part, every backtrack target). -/
def afterKeyCandidates (key : List Char) : List Char → List (List Char)
  | [] => []
  | c :: cs =>
    let here := if isPrefixCI key (c :: cs) then [(c :: cs).drop key.length] else []
    if notBrace c then here ++ afterKeyCandidates key cs else here

/-- `[^{}]*}`: only non-brace characters up to a closing brace. -/
def tailCloses : List Char → Bool
  | [] => false
  | c :: cs => if c = '\x7d' then true else if notBrace c then tailCloses cs else false

/-- `\s*:\s*` then the bracketed pair. -/
def matchColonPair (t : List Char) : Option (ℚ × ℚ × List Char) :=
  match skipReWs t with
  | ':' :: t1 => matchPairAt (skipReWs t1)
  | _ => none

/-- Patterns 1 and 2 of strategy 4 at an opening brace: `key` is the quoted
`point` (double- or single-quoted). -/
def tryPointKeyAt (key : List Char) (cs : List Char) : Option (ℚ × ℚ) :=
  match cs with
  | '\x7b' :: t =>
    (afterKeyCandidates key t).findSome? fun cand =>
      match matchColonPair cand with
      | some (y, x, rest) => if tailCloses rest then some (y, x) else none
      | none => none
  | _ => none

/-- All positions of `[` reachable across non-brace characters. -/
def bracketCandidates : List Char → List (List Char)
  | [] => []
  | c :: cs =>
    let here := if c = '[' then [c :: cs] else []
    if notBrace c then here ++ bracketCandidates cs else here

/-- Pattern 3 of strategy 4 at an opening brace: bare `point`, then any
non-brace run, then the bracketed pair. -/
def tryLoosePointAt (cs : List Char) : Option (ℚ × ℚ) :=
  match cs with
  | '\x7b' :: t =>
    (afterKeyCandidates "point".data t).findSome? fun cand =>
      (bracketCandidates cand).findSome? fun bcand =>
        match matchPairAt bcand with
        | some (y, x, rest) => if tailCloses rest then some (y, x) else none
        | none => none
  | _ => none

/-- Leftmost match of an anchored object pattern. -/
def searchPointObj (tryAt : List Char → Option (ℚ × ℚ)) : List Char → Option (ℚ × ℚ)
  | [] => none
  | c :: cs =>
    match tryAt (c :: cs) with
    | some r => some r
    | none => searchPointObj tryAt cs

/-- Strategy 4 (lines 294-310): the three `{...point...[y, x]...}`
patterns tried in order; a match is returned as `{"point": [y, x]}`
with no range check. -/
def strategy4 (cs : List Char) : Option Js :=
  let quote : Char := Char.ofNat 39
  let pats := [
    tryPointKeyAt ('"' :: ("point".data ++ ['"'])),
    tryPointKeyAt (quote :: ("point".data ++ [quote])),
    tryLoosePointAt]
  pats.findSome? fun p =>
    match searchPointObj p cs with
    | some (y, x) => some (Js.obj [("point", Js.arr [Js.num y, Js.num x])])
    | none => none

/-- `LinguistAssist._extract_json_from_response` (lines 236-326): the ordered
cascade of the five strategies; if every strategy fails, a `ValueError`
carrying the first 200 characters of the (stripped) text. -/
def extract_json_from_response (response_text : String) : Except String Js :=
  let original_text := pyStrip response_text
  let cs := original_text.data
  match jsonLoads original_text <|> strategy2_json cs <|> strategy2_any cs <|>
      strategy3 cs <|> strategy4 cs <|> strategy5 cs with
  | some v => Except.ok v
  | none =>
    Except.error ("Could not extract valid JSON from response: " ++ pyTake original_text 200)

/-- C6 -- For every input text on which all parsing strategies fail (no
strict JSON, no fenced block, no balanced-brace substring, no
regex-recoverable point and no bare in-range pair),
`_extract_json_from_response` fails with a parse error whose message carries
the first 200 characters of the text; and a bare two-number bracketed pair is
accepted as a point by strategy 5 only if both numbers lie within
[0, 1000]. -/
theorem extract_json_error_cases :
    (∀ s : String,
      jsonLoads (pyStrip s) = none →
      strategy2_json (pyStrip s).data = none →
      strategy2_any (pyStrip s).data = none →
      strategy3 (pyStrip s).data = none →
      strategy4 (pyStrip s).data = none →
      strategy5 (pyStrip s).data = none →
      extract_json_from_response s =
        Except.error ("Could not extract valid JSON from response: " ++
          pyTake (pyStrip s) 200)) ∧
    (∀ cs : List Char, (strategy5 cs).isSome = true →
      ∃ y x, searchPair cs = some (y, x) ∧
        0 ≤ y ∧ y ≤ 1000 ∧ 0 ≤ x ∧ x ≤ 1000) := by
  constructor
  · intro s h1 h2 h3 h4 h5 h6
    simp only [extract_json_from_response, h1, h2, h3, h4, h5, h6, Option.none_orElse]
  · intro cs h
    unfold strategy5 at h
    rcases hsp : searchPair cs with _ | ⟨y, x⟩
    · rw [hsp] at h
      simp at h
    · rw [hsp] at h
      by_cases hr : 0 ≤ y ∧ y ≤ 1000 ∧ 0 ≤ x ∧ x ≤ 1000
      · exact ⟨y, x, rfl, hr.1, hr.2.1, hr.2.2.1, hr.2.2.2⟩
      · simp only [hr] at h
        simp at h

/-- Witness for C6: a text with nothing recoverable yields the error with the
text embedded, and the bare pair `[5, 7]` found by strategy 5 is in range. -/
theorem extract_json_error_cases_witness :
    extract_json_from_response "hello" =
      Except.error ("Could not extract valid JSON from response: " ++
        pyTake (pyStrip "hello") 200) ∧
    ∃ y x, searchPair "[5, 7]".data = some (y, x) ∧
      0 ≤ y ∧ y ≤ 1000 ∧ 0 ≤ x ∧ x ≤ 1000 :=
  ⟨extract_json_error_cases.1 "hello" rfl rfl rfl rfl rfl rfl,
   extract_json_error_cases.2 "[5, 7]".data (by decide)⟩

/-! ## `detect_element` (`linguist_assist.py` lines 328-400)

The vision model is an external collaborator: its raw textual response for
each attempt is supplied by the environment.  Each attempt strips the text,
runs `_extract_json_from_response`, checks the `point` field, converts with
`float()` and validates the [0, 1000] range; a parse-class failure
(`json.JSONDecodeError`/`ValueError`) retries while attempts remain, any
other exception aborts as a `RuntimeError` (lines 397-398). -/

/-- Outcome of Python `float()` on a JSON value: a number, a `ValueError`
(numeric-string grammar here: the JSON number grammar), or a `TypeError`. -/
inductive FloatCast where
  | ok (q : ℚ)
  | valueErr
  | typeErr
deriving DecidableEq

def pyFloat : Js → FloatCast
  | .num q => .ok q
  | .bool b => .ok (if b then 1 else 0)
  | .str s =>
    match parseJsonNumber (pyStripChars s.data) with
    | some (q, rest) => if rest.isEmpty then .ok q else .valueErr
    | none => .valueErr
  | _ => .typeErr

/-- Python dict lookup on the parsed object: a later duplicate key wins. -/
def jsLookupLast (k : String) (fields : List (String × Js)) : Option Js :=
  (fields.reverse.find? fun kv => kv.1 = k).map Prod.snd

/-- One detection attempt, classified by how its exception (if any) is
handled by the `except` clauses of `detect_element`. -/
inductive AttemptResult where
  | ok (y x : ℚ)
  | parseErr (msg : String)
  | runtimeErr (msg : String)
deriving DecidableEq

/-- Lines 357-370: strip the response, extract JSON, require a 2-element
`point` list and convert both entries with `float()`.  `ValueError` and
`json.JSONDecodeError` become `parseErr` (the retry class); `TypeError` from
`in`/indexing/`float()` on non-strings becomes `runtimeErr`. -/
def attempt_parse (raw : String) : AttemptResult :=
  match extract_json_from_response (pyStrip raw) with
  | .error e => .parseErr e
  | .ok data =>
    match data with
    | .obj fields =>
      match jsLookupLast "point" fields with
      | none => .parseErr "Response does not contain point key"
      | some v =>
        match v with
        | .arr l =>
          match l with
          | [a, b] =>
            match pyFloat a, pyFloat b with
            | .ok y, .ok x => .ok y x
            | .valueErr, _ => .parseErr "could not convert string to float"
            | _, .valueErr => .parseErr "could not convert string to float"
            | _, _ => .runtimeErr "float() argument must be a string or a number"
          | _ => .parseErr "Point must be a list with exactly 2 coordinates"
        | _ => .parseErr "Point must be a list with exactly 2 coordinates"
    | .arr elems =>
      if elems.any (fun e => match e with | .str s2 => s2 = "point" | _ => false)
      then .runtimeErr "list indices must be integers"
      else .parseErr "Response does not contain point key"
    | .str s2 =>
      if (findSub s2.data "point".data).isSome
      then .runtimeErr "string indices must be integers"
      else .parseErr "Response does not contain point key"
    | _ => .runtimeErr "argument not iterable"

/-- The environment of one `detect_element` call: the model's raw response
per attempt, the screenshot size and the logical screen size. -/
structure DetectEnv where
  responses : ℕ → String
  sw : ℕ
  sh : ℕ
  lw : ℕ
  lh : ℕ

/-- Line 373's validation `0 <= normalized_x <= 1000 and 0 <= normalized_y
<= 1000`. -/
def coords_in_range (y x : ℚ) : Bool :=
  decide (0 ≤ x) && decide (x ≤ 1000) && decide (0 ≤ y) && decide (y ≤ 1000)

/-- The `for attempt in range(max_retries)` loop of lines 348-400 with
`max_retries = 2`: `remaining` counts the attempts left (so
`attempt < max_retries - 1` is `0 < remaining` after entering the body).
On out-of-range coordinates the code retries while attempts remain and
otherwise falls through to the conversion (line 373-388).  The result pairs
the pixel coordinates with the number of model round-trips used. -/
def detect_attempts (env : DetectEnv) (attempt : ℕ) : ℕ → Except String ((ℤ × ℤ) × ℕ)
  | 0 => .error "Failed to detect element after 2 attempts"
  | remaining + 1 =>
    match attempt_parse (env.responses attempt) with
    | .runtimeErr m => .error ("Error during element detection: " ++ m)
    | .parseErr m =>
      if 0 < remaining then detect_attempts env (attempt + 1) remaining
      else .error ("Failed to parse JSON response after 2 attempts: " ++ m)
    | .ok y x =>
      if coords_in_range y x = false ∧ 0 < remaining then
        detect_attempts env (attempt + 1) remaining
      else
        .ok (normalize_to_pixels env.lw env.lh y x (some env.sw) (some env.sh), attempt + 1)

/-- `LinguistAssist.detect_element` (lines 328-400). -/
def detect_element (env : DetectEnv) : Except String ((ℤ × ℤ) × ℕ) :=
  detect_attempts env 0 2

/-- An environment whose model answers with the out-of-range point
`[1500, 1500]` on every attempt. -/
def detectEnvOut : DetectEnv :=
  ⟨fun _ => "\x7b\"point\": [1500, 1500]\x7d", 1000, 1000, 1000, 1000⟩

/-- C7 counterexample -- with coordinates out of range on both attempts,
`detect_element` does not fail with a detection error: after the one retry it
proceeds anyway, clamps via the coordinate mapper, and returns the pixel
result (999, 999). -/
theorem detect_element_accepts_after_retry :
    detect_element detectEnvOut = .ok ((999, 999), 2) := rfl

/-- C7 amended -- in `detect_element`, if the parsed normalized coordinates
are out of the [0, 1000] range, the call retries once more (one extra model
round-trip) and, if the coordinates are still out of range, it does not fail:
it proceeds anyway, converting the clamped coordinates through the
coordinate mapper and returning that pixel result after exactly 2 model
round-trips. -/
theorem detect_element_retry_then_proceed (env : DetectEnv) (y0 x0 y1 x1 : ℚ)
    (h0 : attempt_parse (env.responses 0) = .ok y0 x0)
    (hr0 : coords_in_range y0 x0 = false)
    (h1 : attempt_parse (env.responses 1) = .ok y1 x1)
    (hr1 : coords_in_range y1 x1 = false) :
    detect_element env =
      .ok (normalize_to_pixels env.lw env.lh y1 x1 (some env.sw) (some env.sh), 2) := by
  unfold detect_element detect_attempts
  rw [h0]
  simp only [hr0, Nat.lt_irrefl, and_true, if_pos, Nat.zero_lt_one, true_and, if_true]
  unfold detect_attempts
  rw [h1]
  simp [hr1]

/-- Witness for C7's amended theorem at the concrete environment. -/
theorem detect_element_retry_then_proceed_witness :
    detect_element detectEnvOut =
      .ok (normalize_to_pixels detectEnvOut.lw detectEnvOut.lh 1500 1500
        (some detectEnvOut.sw) (some detectEnvOut.sh), 2) :=
  detect_element_retry_then_proceed detectEnvOut 1500 1500 1500 1500
    rfl rfl rfl rfl

/-! ## The `screencapture` subprocess fallback (`linguist_assist.py` lines 202-234)

The inner fallback block of `capture_screenshot`: create a named temporary
file, run the external `screencapture` utility on it, read the image back and
delete the file.  The outcomes of the two external operations (the
`subprocess.run` call, which can also raise, e.g. `TimeoutExpired`, and
`Image.open`) are the environment; the file-system events the block performs
are returned as a trace, together with whether a screenshot was produced
(`true`) or an exception propagated to the outer handler (`false`). -/

/-- Outcome of the `subprocess.run(['screencapture', ...], timeout=5)` call:
either it completes with a return code, or it raises. -/
inductive SubprocResult where
  | completed (returncode : ℤ)
  | raised
deriving DecidableEq

structure CaptureEnv where
  run_result : SubprocResult
  open_ok : Bool
deriving DecidableEq

inductive CapEvent where
  | createdTemp
  | ranScreencapture
  | openedImage
  | unlinked
deriving DecidableEq

/-- Lines 208-223: the body of the subprocess fallback.  `Image.open` failing
or `subprocess.run` raising propagates out of this block (caught only by the
outer `except Exception` at line 224, which re-raises a `RuntimeError`). -/
def screencapture_fallback (env : CaptureEnv) : Bool × List CapEvent :=
  let ev0 : List CapEvent := [.createdTemp, .ranScreencapture]
  match env.run_result with
  | .raised => (false, ev0)
  | .completed rc =>
    if rc = 0 then
      if env.open_ok then (true, ev0 ++ [.openedImage, .unlinked])
      else (false, ev0)
    else (false, ev0 ++ [.unlinked])

/-- C9 counterexample -- the temporary file is not deleted on every path:
when `screencapture` exits 0 but the image read-back fails, and when
`subprocess.run` itself raises (e.g. a timeout), the block propagates the
exception without ever calling `os.unlink`, leaking the temp file. -/
theorem screencapture_fallback_leaks :
    CapEvent.unlinked ∉ (screencapture_fallback ⟨.completed 0, false⟩).2 ∧
    CapEvent.unlinked ∉ (screencapture_fallback ⟨.raised, true⟩).2 := by decide

/-- C9 amended -- the temporary file is deleted exactly on the paths where
`subprocess.run` returns normally and, in the returncode-0 case, the image
read-back succeeds: deletion happens after a successful read-back and before
raising on a nonzero return code, but not when the subprocess call raises or
the read-back fails. -/
theorem screencapture_fallback_unlink_iff (env : CaptureEnv) :
    CapEvent.unlinked ∈ (screencapture_fallback env).2 ↔
      (∃ rc, env.run_result = .completed rc ∧ (rc ≠ 0 ∨ env.open_ok = true)) := by
  unfold screencapture_fallback
  rcases env with ⟨run_result, open_ok⟩
  rcases run_result with rc | _
  · by_cases h0 : rc = 0
    · subst h0
      cases open_ok <;> simp
    · simp [h0]
  · simp

/-- Witness for C9's amended theorem at a concrete environment (nonzero
return code: deleted before raising). -/
theorem screencapture_fallback_unlink_iff_witness :
    CapEvent.unlinked ∈ (screencapture_fallback ⟨.completed 1, false⟩).2 ↔
      (∃ rc, (⟨.completed 1, false⟩ : CaptureEnv).run_result = .completed rc ∧
        (rc ≠ 0 ∨ (⟨.completed 1, false⟩ : CaptureEnv).open_ok = true)) :=
  screencapture_fallback_unlink_iff ⟨.completed 1, false⟩

/-! ## `execute_task` (`linguist_assist.py` lines 438-848)

The autonomous execution loop, as a step function on an explicit agent state.
External collaborators are oracles in an `Env`:

* `plans n` — the parsed planning decision of step `n` (the capture, the
  model call and the planning-response parsing of lines 462-596 succeeding;
  every claim below concerns runs where they do);
* `shot n` — the screenshot dimensions of step `n`;
* `detect n` — the outcome of a `detect_element` call made during step `n`
  (`none` = it raised);
* `jitter n` — the `random.randint(-3, 3)` pair of step `n`, as offsets + 3;
* `svcOk` — whether the loopback GUI action service answers successfully;
* `lw`, `lh` — the `CoordinateMapper` logical screen size.

Input side effects and the loop-guard diagnostics are recorded as `Event`s,
in execution order. -/

/-- The parsed `plan_data` of one planning cycle, with the `.get` defaults of
lines 611-614 applied (`action_type` defaults to `"click"`, the string fields
to `""`); `point` is the raw optional list, whose length the code checks. -/
structure Plan where
  complete : Bool
  action_type : String
  action : String
  text : String
  key : String
  point : Option (List ℚ)

structure Env where
  plans : ℕ → Plan
  shot : ℕ → ℕ × ℕ
  detect : ℕ → Option (ℤ × ℤ)
  jitter : ℕ → Fin 7 × Fin 7
  svcOk : Bool
  lw : ℕ
  lh : ℕ

/-- The loop-local state of `execute_task` (lines 453-457). -/
structure AgentState where
  step : ℕ
  action_history : List String
  recent_actions : List String
  recent_coordinates : List (ℤ × ℤ)
  loop_count : ℕ
deriving DecidableEq

inductive Event where
  | capture (w h : ℕ)
  | loopWarning
  | criticalHint
  | loopCountAbort
  | repeatActionWarn
  | tightLoopAbort
  | coordRepeatWait
  | clickAt (x y : ℤ)
  | typed (s : String)
  | keyPressed (k : String)
  | detectFailed
  | invalidCoords
  | sleep (q : ℚ)
deriving DecidableEq

inductive StepOutcome where
  | next
  | done (result : Bool)
deriving DecidableEq

/-- Python slicing `l[-n:]`. -/
def lastN (n : ℕ) (l : List α) : List α := l.drop (l.length - n)

/-- Python `str.lower()` (per-character lowering on the char list; the
byte-position-based `String.toLower` does not evaluate in the kernel). -/
def lowerStr (s : String) : String := ⟨s.data.map Char.toLower⟩

/-- `len(set(lowered)) <= 1`: all strings equal ignoring case. -/
def allSameLower (l : List String) : Bool :=
  match l.map lowerStr with
  | [] => true
  | a :: rest => rest.all (fun b => b = a)

/-- The condition of lines 476-478 (and again of lines 747-749): at least 3
recent actions and the last three identical ignoring case. -/
def last3_all_same (st : AgentState) : Bool :=
  3 ≤ st.recent_actions.length && allSameLower (lastN 3 st.recent_actions)

/-- The `loop_count` update of lines 476-485: increment on the warning
condition, reset when the recent actions differ, untouched when fewer than
3 actions are recorded. -/
def updated_loop_count (st : AgentState) : ℕ :=
  if 3 ≤ st.recent_actions.length then
    (if allSameLower (lastN 3 st.recent_actions) then st.loop_count + 1 else 0)
  else st.loop_count

/-- `is_repeat` of lines 731-739: the new target is within 50 pixels on both
axes of one of the last 3 recorded coordinates. -/
def is_coord_repeat (st : AgentState) (px py : ℤ) : Bool :=
  (lastN 3 st.recent_coordinates).any fun pc =>
    (px - pc.1).natAbs < 50 && (py - pc.2).natAbs < 50

/-- Line 742: the current action's lowercase text equals one of the last 2
recorded actions (and at least 2 are recorded). -/
def is_action_repeat (st : AgentState) (action : String) : Bool :=
  2 ≤ st.recent_actions.length &&
    (lastN 2 st.recent_actions).any fun a => lowerStr a = lowerStr action

/-- The key-name lookup table of lines 691-700. -/
def key_mapping : List (String × String) :=
  [("enter", "return"), ("return", "return"), ("tab", "tab"),
   ("escape", "esc"), ("esc", "esc"), ("space", "space"),
   ("backspace", "backspace"), ("delete", "delete")]

def mapKey (k : String) : String :=
  ((key_mapping.find? fun kv => kv.1 = k).map Prod.snd).getD k

/-- Lines 796-799: keep only the last 5 recorded entries. -/
def trimTo5 (l : List α) : List α := if 5 < l.length then l.tail else l

/-- The per-step result of the dispatch part of the loop body (lines
599-834): the three history lists as updated by the executed branch, whether
the loop continues or returns, and the events the branch performs.  The
state assembly (step increment, `loop_count` write-back) happens once in
`execStep`; the branch structure below mirrors the source's. -/
structure BranchOut where
  action_history : List String
  recent_actions : List String
  recent_coordinates : List (ℤ × ℤ)
  outcome : StepOutcome
  events : List Event

/-- A branch that leaves all three history lists unchanged. -/
def keepHistories (st : AgentState) (o : StepOutcome) (ev : List Event) : BranchOut :=
  { action_history := st.action_history, recent_actions := st.recent_actions,
    recent_coordinates := st.recent_coordinates, outcome := o, events := ev }

/-- Lines 759-802: jitter the click target, clamp to the logical screen,
dispatch the click (service route, or direct with an extra 0.1s delay),
record the action and the unjittered pixel coordinates, and settle 2s. -/
def clickFinish (jit : Fin 7 × Fin 7) (svcOk : Bool) (lw lh : ℕ) (st : AgentState)
    (action : String) (px py : ℤ) (evPre : List Event) : BranchOut :=
  let offset_x : ℤ := ((jit.1 : ℕ) : ℤ) - 3
  let offset_y : ℤ := ((jit.2 : ℕ) : ℤ) - 3
  let click_x := max 0 (min (px + offset_x) ((lw : ℤ) - 1))
  let click_y := max 0 (min (py + offset_y) ((lh : ℤ) - 1))
  let clickEv := if svcOk then [Event.clickAt click_x click_y]
                 else [Event.sleep (1/10), Event.clickAt click_x click_y]
  { action_history := st.action_history ++ [action],
    recent_actions := trimTo5 (st.recent_actions ++ [action]),
    recent_coordinates := trimTo5 (st.recent_coordinates ++ [(px, py)]),
    outcome := .next,
    events := evPre ++ clickEv ++ [Event.sleep (3/10), Event.sleep 2] }

/-- Lines 599-834: completion check, hard `loop_count` ceiling, empty-action
check, then the `type` / `press_key` / `click` dispatch.  `p` is the parsed
plan, `detectRes` the outcome of a `detect_element` call if the branch makes
one, `loopc` the already-updated `loop_count`.  Events exclude the prompt
events of lines 470-494, which `execStep` emits first. -/
def planBranches (p : Plan) (detectRes : Option (ℤ × ℤ)) (jit : Fin 7 × Fin 7)
    (svcOk : Bool) (lw lh sw sh : ℕ) (st : AgentState) (loopc : ℕ) : BranchOut :=
  -- completion (599-601)
  if p.complete then keepHistories st (.done true) []
  -- hard loop-count ceiling (603-608)
  else if 4 ≤ loopc then keepHistories st (.done false) [Event.loopCountAbort]
  -- nothing to do (616-618)
  else if p.action = "" ∧ p.text = "" ∧ p.key = "" then keepHistories st (.done false) []
  -- type (629-682)
  else if p.action_type = "type" then
    let clickEv : List Event :=
      match p.point with
      | some [ny, nx] =>
        let pxy := normalize_to_pixels lw lh ny nx (some sw) (some sh)
        [Event.clickAt pxy.1 pxy.2, Event.sleep (3/10)]
      | some _ => []
      | none =>
        if p.action ≠ "" then
          match detectRes with
          | some pq => [Event.clickAt pq.1 pq.2, Event.sleep (3/10)]
          | none => [Event.detectFailed]
        else []
    if p.text ≠ "" then
      { action_history := st.action_history ++ ["Typed: " ++ p.text],
        recent_actions := st.recent_actions,
        recent_coordinates := st.recent_coordinates,
        outcome := .next,
        events := clickEv ++ [Event.typed p.text, Event.sleep (1/2)] }
    else keepHistories st (.done false) clickEv
  -- press_key (684-719)
  else if p.action_type = "press_key" then
    if p.key ≠ "" then
      let key_name := lowerStr p.key
      let dispatched := if svcOk then key_name else mapKey key_name
      { action_history := st.action_history ++ ["Pressed key: " ++ key_name],
        recent_actions := st.recent_actions,
        recent_coordinates := st.recent_coordinates,
        outcome := .next,
        events := [Event.keyPressed dispatched, Event.sleep (1/2)] }
    else keepHistories st (.done false) []
  -- click, the default (721-834)
  else
    match p.point with
    | some [ny, nx] =>
      let pxy := normalize_to_pixels lw lh ny nx (some sw) (some sh)
      let px := pxy.1
      let py := pxy.2
      if is_action_repeat st p.action then
        -- tight loop (747-752): abort before any click
        if last3_all_same st then
          keepHistories st (.done false) [Event.repeatActionWarn, Event.tightLoopAbort]
        else
          let evWait := if is_coord_repeat st px py
            then [Event.coordRepeatWait, Event.sleep 2] else []
          clickFinish jit svcOk lw lh st p.action px py ([Event.repeatActionWarn] ++ evWait)
      else clickFinish jit svcOk lw lh st p.action px py []
    | some _ => keepHistories st .next [Event.invalidCoords]
    | none =>
      if p.action ≠ "" then
        match detectRes with
        | some pq =>
          { action_history := st.action_history ++ [p.action],
            recent_actions := st.recent_actions,
            recent_coordinates := st.recent_coordinates,
            outcome := .next,
            events := [Event.clickAt pq.1 pq.2, Event.sleep 1] }
        | none => keepHistories st (.done false) [Event.detectFailed]
      else keepHistories st (.done false) []

/-- One iteration of the `while step_count < max_steps` body
(lines 460-845): capture (462-464), prompt building with loop awareness
(470-494), the planning call and parse (the oracle), then the dispatch. -/
def execStep (env : Env) (st : AgentState) : AgentState × StepOutcome × List Event :=
  let wh := env.shot st.step
  let warnB := last3_all_same st
  let loopc := updated_loop_count st
  let ev0 := [Event.capture wh.1 wh.2]
    ++ (if warnB then [Event.loopWarning] else [])
    ++ (if 3 ≤ loopc then [Event.criticalHint] else [])
  let b := planBranches (env.plans st.step) (env.detect st.step) (env.jitter st.step)
    env.svcOk env.lw env.lh wh.1 wh.2 st loopc
  ({ step := st.step + 1, action_history := b.action_history,
     recent_actions := b.recent_actions, recent_coordinates := b.recent_coordinates,
     loop_count := loopc }, b.outcome, ev0 ++ b.events)


/-- The loop driver.  `step_count` increases by exactly one every iteration,
so the `while step_count < max_steps` guard is equivalent to a fuel of
`max_steps - step_count` remaining iterations; reaching fuel 0 is line 847's
max-steps failure return. -/
def runAux (env : Env) (fuel : ℕ) (st : AgentState) (tr : List Event) :
    Bool × AgentState × List Event :=
  match fuel with
  | 0 => (false, st, tr)
  | fuel' + 1 =>
    match execStep env st with
    | (st', .done b, ev) => (b, st', tr ++ ev)
    | (st', .next, ev) => runAux env fuel' st' (tr ++ ev)

def initState : AgentState := ⟨0, [], [], [], 0⟩

/-- `LinguistAssist.execute_task` (lines 438-848), relative to the oracles. -/
def execute_task (env : Env) (max_steps : ℕ) : Bool × AgentState × List Event :=
  runAux env max_steps initState []

def isCaptureEv : Event → Bool
  | .capture _ _ => true
  | _ => false

def isClickEv : Event → Bool
  | .clickAt _ _ => true
  | _ => false

/-- Pointer, text and key events: the input actions `execute_task` executes. -/
def isInputEv : Event → Bool
  | .clickAt _ _ => true
  | .typed _ => true
  | .keyPressed _ => true
  | _ => false

/-- The loop-guard diagnostics: prompt warnings, the repeat-action warning,
the coordinate-repeat wait and the two loop aborts. -/
def isLoopGuardEv : Event → Bool
  | .loopWarning => true
  | .criticalHint => true
  | .loopCountAbort => true
  | .repeatActionWarn => true
  | .tightLoopAbort => true
  | .coordRepeatWait => true
  | _ => false

def countEv (p : Event → Bool) (tr : List Event) : ℕ := (tr.filter p).length

lemma runAux_done (env : Env) (fuel : ℕ) (st st' : AgentState) (b : Bool)
    (ev tr : List Event) (h : execStep env st = (st', .done b, ev)) :
    runAux env (fuel + 1) st tr = (b, st', tr ++ ev) := by
  simp [runAux, h]

lemma runAux_next (env : Env) (fuel : ℕ) (st st' : AgentState)
    (ev tr : List Event) (h : execStep env st = (st', .next, ev)) :
    runAux env (fuel + 1) st tr = runAux env fuel st' (tr ++ ev) := by
  simp [runAux, h]

/-- Every iteration increments `step_count` exactly once (line 464). -/
lemma execStep_step (env : Env) (st : AgentState) :
    ((execStep env st).1).step = st.step + 1 := rfl

/-- The `loop_count` written back is exactly the prompt-phase update. -/
lemma execStep_loop_count (env : Env) (st : AgentState) :
    ((execStep env st).1).loop_count = updated_loop_count st := rfl

lemma countEv_append (p : Event → Bool) (l1 l2 : List Event) :
    countEv p (l1 ++ l2) = countEv p l1 + countEv p l2 := by
  simp [countEv, List.filter_append]

set_option maxHeartbeats 1000000 in
/-- No branch of the dispatch captures the screen. -/
lemma planBranches_capture_free (p : Plan) (dr : Option (ℤ × ℤ)) (jit : Fin 7 × Fin 7)
    (svcOk : Bool) (lw lh sw sh : ℕ) (st : AgentState) (loopc : ℕ) :
    countEv isCaptureEv (planBranches p dr jit svcOk lw lh sw sh st loopc).events = 0 := by
  obtain ⟨c, aty, a, t, k, pt⟩ := p
  rcases pt with _ | ⟨_ | ⟨y, _ | ⟨x, _ | ⟨z, zs⟩⟩⟩⟩
  all_goals rcases dr with _ | pq
  all_goals unfold planBranches clickFinish keepHistories
  all_goals dsimp only
  all_goals repeat' split
  all_goals simp [countEv, isCaptureEv]

set_option maxHeartbeats 1000000 in
/-- Every iteration captures the screen exactly once (line 462). -/
lemma execStep_one_capture (env : Env) (st : AgentState) :
    countEv isCaptureEv (execStep env st).2.2 = 1 := by
  unfold execStep
  dsimp only
  rw [countEv_append, planBranches_capture_free]
  rcases last3_all_same st <;> rcases h4 : decide (3 ≤ updated_loop_count st) <;>
    simp_all [countEv, isCaptureEv]

/-- A completed plan ends the step as a success immediately, with no input
action in that step's events. -/
lemma execStep_complete (env : Env) (st : AgentState)
    (hc : (env.plans st.step).complete = true) :
    (execStep env st).2.1 = .done true ∧
    (execStep env st).1.step = st.step + 1 ∧
    countEv isInputEv (execStep env st).2.2 = 0 := by
  unfold execStep planBranches keepHistories
  dsimp only
  rw [if_pos hc]
  refine ⟨rfl, rfl, ?_⟩
  rcases last3_all_same st <;> rcases h4 : decide (3 ≤ updated_loop_count st) <;>
    simp_all [countEv, isInputEv]

/-- C5 -- In `execute_task` with max_steps = 20, if the planning model
returns complete:true on step 3 (after two ordinary continuing steps), the
loop returns a successful outcome at step 3 and never performs a fourth
capture/planning step (exactly 3 captures in the whole run) or executes any
further input action (the input actions are exactly those of steps 1-2). -/
theorem execute_task_completes_at_step3 (env : Env) (S1 S2 : AgentState)
    (E1 E2 : List Event)
    (h1 : execStep env initState = (S1, .next, E1))
    (h2 : execStep env S1 = (S2, .next, E2))
    (hc : (env.plans 2).complete = true) :
    (execute_task env 20).1 = true ∧
    (execute_task env 20).2.1.step = 3 ∧
    countEv isCaptureEv (execute_task env 20).2.2 = 3 ∧
    countEv isInputEv (execute_task env 20).2.2 =
      countEv isInputEv E1 + countEv isInputEv E2 := by
  have hs1 : S1.step = 1 := by
    have h := congrArg (fun r => r.1.step) h1
    simp only [execStep_step, initState] at h
    omega
  have hs2 : S2.step = 2 := by
    have h := congrArg (fun r => r.1.step) h2
    simp only [execStep_step, hs1] at h
    omega
  have hc2 : (env.plans S2.step).complete = true := by rw [hs2]; exact hc
  rcases hE : execStep env S2 with ⟨S3, o3, E3⟩
  have hcomp := execStep_complete env S2 hc2
  have hcap3 := execStep_one_capture env S2
  have hcap1 := execStep_one_capture env initState
  have hcap2 := execStep_one_capture env S1
  rw [hE] at hcomp hcap3
  rw [h1] at hcap1
  rw [h2] at hcap2
  simp only at hcomp hcap3 hcap1 hcap2
  obtain ⟨ho3, hstep3, hinp3⟩ := hcomp
  subst ho3
  have hrun : execute_task env 20 = (true, S3, (([] ++ E1) ++ E2) ++ E3) := by
    show runAux env (19 + 1) initState [] = _
    rw [runAux_next env 19 initState S1 E1 [] h1]
    show runAux env (18 + 1) S1 ([] ++ E1) = _
    rw [runAux_next env 18 S1 S2 E2 ([] ++ E1) h2]
    show runAux env (17 + 1) S2 (([] ++ E1) ++ E2) = _
    rw [runAux_done env 17 S2 S3 true E3 (([] ++ E1) ++ E2) hE]
  rw [hrun]
  refine ⟨rfl, ?_, ?_, ?_⟩
  · show S3.step = 3
    rw [hstep3, hs2]
  · simp [countEv_append, hcap1, hcap2, hcap3]
  · simp [countEv_append, hinp3]

/-- A planning sequence that acts on steps 1 and 2 and reports completion on
step 3. -/
def envC5 : Env :=
  { plans := fun n =>
      if n = 0 then ⟨false, "click", "a", "", "", some [200, 200]⟩
      else if n = 1 then ⟨false, "click", "b", "", "", some [700, 700]⟩
      else ⟨true, "click", "", "", "", none⟩,
    shot := fun _ => (1000, 1000), detect := fun _ => none,
    jitter := fun _ => (3, 3), svcOk := true, lw := 1000, lh := 1000 }

/-- Witness for C5 at the concrete planning sequence. -/
theorem execute_task_completes_at_step3_witness :
    (execute_task envC5 20).1 = true ∧
    (execute_task envC5 20).2.1.step = 3 ∧
    countEv isCaptureEv (execute_task envC5 20).2.2 = 3 ∧
    countEv isInputEv (execute_task envC5 20).2.2 =
      countEv isInputEv [Event.capture 1000 1000, Event.clickAt 200 200,
        Event.sleep (3/10), Event.sleep 2] +
      countEv isInputEv [Event.capture 1000 1000, Event.clickAt 700 700,
        Event.sleep (3/10), Event.sleep 2] :=
  execute_task_completes_at_step3 envC5
    ⟨1, ["a"], ["a"], [(200, 200)], 0⟩
    ⟨2, ["a", "b"], ["a", "b"], [(200, 200), (700, 700)], 0⟩
    [Event.capture 1000 1000, Event.clickAt 200 200, Event.sleep (3/10), Event.sleep 2]
    [Event.capture 1000 1000, Event.clickAt 700 700, Event.sleep (3/10), Event.sleep 2]
    (by decide) (by decide) (by decide)

/-- A planning model that on every step returns complete:false with the same
valid click action (description "click a", point [500, 500]). -/
def envUC : Env :=
  { plans := fun _ => ⟨false, "click", "click a", "", "", some [500, 500]⟩,
    shot := fun _ => (1000, 1000), detect := fun _ => none,
    jitter := fun _ => (3, 3), svcOk := true, lw := 1000, lh := 1000 }

def ucS1 : AgentState := ⟨1, ["click a"], ["click a"], [(500, 500)], 0⟩
def ucS2 : AgentState :=
  ⟨2, ["click a", "click a"], ["click a", "click a"], [(500, 500), (500, 500)], 0⟩
def ucS3 : AgentState :=
  ⟨3, ["click a", "click a", "click a"], ["click a", "click a", "click a"],
   [(500, 500), (500, 500), (500, 500)], 0⟩
def ucS4 : AgentState :=
  ⟨4, ["click a", "click a", "click a"], ["click a", "click a", "click a"],
   [(500, 500), (500, 500), (500, 500)], 1⟩

def ucE1 : List Event :=
  [Event.capture 1000 1000, Event.clickAt 500 500, Event.sleep (3/10), Event.sleep 2]
def ucE3 : List Event :=
  [Event.capture 1000 1000, Event.repeatActionWarn, Event.coordRepeatWait,
   Event.sleep 2, Event.clickAt 500 500, Event.sleep (3/10), Event.sleep 2]
def ucE4 : List Event :=
  [Event.capture 1000 1000, Event.loopWarning, Event.repeatActionWarn,
   Event.tightLoopAbort]

/-- C1 counterexample -- under a planning model that always returns
complete:false with a valid but unchanging click action, the loop does fail
before max_steps, but not through `loop_count` reaching 4: it terminates at
step 4 via the tight-loop check (line 747-752), at which point `loop_count`
is 1 and was incremented exactly once in the whole run (one loop-warning
prompt cycle), and the `loop_count >= 4` abort of line 605 never fires. -/
theorem execute_task_unchanging_click_loop_count_never_4 :
    (execute_task envUC 20).1 = false ∧
    (execute_task envUC 20).2.1.step = 4 ∧
    (execute_task envUC 20).2.1.loop_count = 1 ∧
    countEv (fun e => e = Event.loopWarning) (execute_task envUC 20).2.2 = 1 ∧
    Event.loopCountAbort ∉ (execute_task envUC 20).2.2 ∧
    Event.tightLoopAbort ∈ (execute_task envUC 20).2.2 := by decide

/-- C1 amended -- in `execute_task`, if the planning model on every step
returns complete:false with a valid but unchanging click action, the loop
terminates with a failure result at step 4 — before `step_count` reaches any
max_steps ≥ 4 — via the tight-loop check, with `loop_count` equal to 1;
`loop_count` is incremented exactly once and never reaches 4 (the
`loop_count >= 4` abort does not fire). -/
theorem execute_task_unchanging_click_fails_at_4 (m : ℕ) (hm : 4 ≤ m) :
    (execute_task envUC m).1 = false ∧
    (execute_task envUC m).2.1.step = 4 ∧
    (execute_task envUC m).2.1.loop_count = 1 ∧
    Event.tightLoopAbort ∈ (execute_task envUC m).2.2 ∧
    Event.loopCountAbort ∉ (execute_task envUC m).2.2 ∧
    countEv (fun e => e = Event.loopWarning) (execute_task envUC m).2.2 = 1 := by
  obtain ⟨k, rfl⟩ : ∃ k, m = k + 4 := ⟨m - 4, by omega⟩
  have h1 : execStep envUC initState = (ucS1, .next, ucE1) := by decide
  have h2 : execStep envUC ucS1 = (ucS2, .next, ucE1) := by decide
  have h3 : execStep envUC ucS2 = (ucS3, .next, ucE3) := by decide
  have h4 : execStep envUC ucS3 = (ucS4, .done false, ucE4) := by decide
  have hrun : execute_task envUC (k + 4) =
      (false, ucS4, ((([] ++ ucE1) ++ ucE1) ++ ucE3) ++ ucE4) := by
    show runAux envUC ((k + 3) + 1) initState [] = _
    rw [runAux_next envUC (k + 3) initState ucS1 ucE1 [] h1]
    show runAux envUC ((k + 2) + 1) ucS1 ([] ++ ucE1) = _
    rw [runAux_next envUC (k + 2) ucS1 ucS2 ucE1 ([] ++ ucE1) h2]
    show runAux envUC ((k + 1) + 1) ucS2 (([] ++ ucE1) ++ ucE1) = _
    rw [runAux_next envUC (k + 1) ucS2 ucS3 ucE3 (([] ++ ucE1) ++ ucE1) h3]
    rw [runAux_done envUC k ucS3 ucS4 false ucE4 ((([] ++ ucE1) ++ ucE1) ++ ucE3) h4]
  rw [hrun]
  refine ⟨rfl, rfl, rfl, ?_, ?_, ?_⟩ <;> decide

/-- Witness for C1's amended theorem at max_steps = 20. -/
theorem execute_task_unchanging_click_fails_at_4_witness :
    (execute_task envUC 20).1 = false ∧
    (execute_task envUC 20).2.1.step = 4 ∧
    (execute_task envUC 20).2.1.loop_count = 1 ∧
    Event.tightLoopAbort ∈ (execute_task envUC 20).2.2 ∧
    Event.loopCountAbort ∉ (execute_task envUC 20).2.2 ∧
    countEv (fun e => e = Event.loopWarning) (execute_task envUC 20).2.2 = 1 :=
  execute_task_unchanging_click_fails_at_4 20 (by decide)

/-- A planning model that repeats the same click three times with a point,
then repeats its description a fourth time as a click WITHOUT a point
(resolved via element detection), then reports completion. -/
def envTL : Env :=
  { plans := fun n =>
      if n < 3 then ⟨false, "click", "click A", "", "", some [500, 500]⟩
      else if n = 3 then ⟨false, "click", "click A", "", "", none⟩
      else ⟨true, "click", "", "", "", none⟩,
    shot := fun _ => (1000, 1000), detect := fun _ => some (600, 600),
    jitter := fun _ => (3, 3), svcOk := true, lw := 1000, lh := 1000 }

/-- C2 counterexample -- after the last 3 recorded actions are all
identical ("click A" three times, visible in the state after 3 steps), a
next planned action that repeats them but carries no model point does NOT
abort: the detection-resolved click is executed as a fourth input action and
the run goes on to succeed, with no tight-loop abort anywhere. -/
theorem tight_loop_repeat_via_detection_not_aborted :
    (execute_task envTL 3).2.1.recent_actions = ["click A", "click A", "click A"] ∧
    (envTL.plans 3).action = "click A" ∧
    (envTL.plans 3).point = none ∧
    (execute_task envTL 20).1 = true ∧
    countEv isClickEv (execute_task envTL 20).2.2 = 4 ∧
    Event.tightLoopAbort ∉ (execute_task envTL 20).2.2 := by decide

/-- C2 amended -- whenever the last 3 recorded actions are all identical
(case-insensitive) and the next planned action is a click WITH a
model-provided point whose description repeats them, the step aborts the
task with failure without executing any input action, independently of the
loop_count counter; a repeating action dispatched through element detection
(no point) or as a type/press_key action is not covered by the tight-loop
check (see the counterexample). -/
theorem step_tight_loop_point_click_aborts (env : Env) (st : AgentState)
    (a t k : String) (ny nx : ℚ)
    (hplan : env.plans st.step = ⟨false, "click", a, t, k, some [ny, nx]⟩)
    (ha : a ≠ "")
    (h3 : last3_all_same st = true)
    (hrep : is_action_repeat st a = true) :
    (execStep env st).2.1 = .done false ∧
    countEv isInputEv (execStep env st).2.2 = 0 := by
  unfold execStep planBranches keepHistories
  dsimp only
  rw [hplan]
  dsimp only
  by_cases h4 : 4 ≤ updated_loop_count st
  · rw [if_pos h4]
    refine ⟨rfl, ?_⟩
    rcases hw : last3_all_same st <;> rcases hcrit : decide (3 ≤ updated_loop_count st) <;>
      simp_all [countEv, isInputEv, countEv_append]
  · rw [if_neg h4]
    rw [if_neg (show ¬(a = "" ∧ t = "" ∧ k = "") from fun hh => ha hh.1)]
    rw [if_neg (show ¬("click" : String) = "type" by decide)]
    rw [if_neg (show ¬("click" : String) = "press_key" by decide)]
    simp only [h3, hrep, if_true]
    refine ⟨rfl, ?_⟩
    rcases hcrit : decide (3 ≤ updated_loop_count st) <;>
      simp_all [countEv, isInputEv, countEv_append]

/-- Witness for C2's amended theorem: the state after three identical
recorded clicks, with the same click (with point) planned next. -/
theorem step_tight_loop_point_click_aborts_witness :
    (execStep envUC ucS3).2.1 = .done false ∧
    countEv isInputEv (execStep envUC ucS3).2.2 = 0 :=
  step_tight_loop_point_click_aborts envUC ucS3 "click a" "" "" 500 500
    rfl (by decide) (by decide) (by decide)

/-- Membership in a conditional one-element event list. -/
lemma mem_ite_singleton (e x : Event) (c : Prop) [Decidable c] :
    e ∈ (if c then [x] else ([] : List Event)) ↔ c ∧ e = x := by
  split <;> simp_all

lemma coordWait_not_mem_clickEv (b : Bool) (q : ℚ) (cx cy : ℤ) :
    Event.coordRepeatWait ∉
      (if b = true then [Event.clickAt cx cy]
       else [Event.sleep q, Event.clickAt cx cy]) := by
  rcases b <;> simp

set_option maxHeartbeats 2000000 in
/-- C8 amended -- in the click-with-model-point branch, the longer ~2s settle
delay before the click is taken exactly when the new target lies within 50
pixels (both axes) of one of the last 3 recorded coordinates AND the
current action's text repeats one of the last 2 recorded actions AND the
tight-loop abort does not fire; when it is taken it happens before the click
is dispatched; and without the repeated-action-plus-tight-loop combination
the step never aborts, so coordinate repetition by itself never aborts the
task. -/
theorem step_click_coord_repeat_wait_iff (env : Env) (st : AgentState)
    (a t k : String) (ny nx : ℚ) (px py : ℤ)
    (hplan : env.plans st.step = ⟨false, "click", a, t, k, some [ny, nx]⟩)
    (ha : a ≠ "")
    (hl : updated_loop_count st < 4)
    (hpxy : normalize_to_pixels env.lw env.lh ny nx
      (some (env.shot st.step).1) (some (env.shot st.step).2) = (px, py)) :
    (Event.coordRepeatWait ∈ (execStep env st).2.2 ↔
      (is_coord_repeat st px py = true ∧ is_action_repeat st a = true ∧
       last3_all_same st = false)) ∧
    ((is_action_repeat st a = false ∨ last3_all_same st = false) →
      (execStep env st).2.1 = .next) ∧
    ((is_coord_repeat st px py = true ∧ is_action_repeat st a = true ∧
       last3_all_same st = false) →
      ∃ l1 l2, (execStep env st).2.2 =
          l1 ++ Event.coordRepeatWait :: Event.sleep 2 :: l2 ∧
        ∃ cx cy, Event.clickAt cx cy ∈ l2) := by
  unfold execStep planBranches keepHistories clickFinish
  dsimp only
  rw [hplan]
  dsimp only
  rw [if_neg (show ¬4 ≤ updated_loop_count st by omega)]
  rw [if_neg (show ¬(a = "" ∧ t = "" ∧ k = "") from fun hh => ha hh.1)]
  rw [if_neg (show ¬("click" : String) = "type" by decide)]
  rw [if_neg (show ¬("click" : String) = "press_key" by decide)]
  rw [hpxy]
  dsimp only
  refine ⟨?_, ?_, ?_⟩
  · -- the membership iff
    rcases har : is_action_repeat st a <;> rcases h3 : last3_all_same st <;>
      simp only [Bool.false_eq_true, Bool.true_eq_false, if_true, if_false,
        ite_true, ite_false, and_true, and_false, false_and, true_and]
    · simp [mem_ite_singleton, coordWait_not_mem_clickEv]
    · simp [mem_ite_singleton, coordWait_not_mem_clickEv]
    · rcases hcr : is_coord_repeat st px py <;>
        simp [mem_ite_singleton, coordWait_not_mem_clickEv]
    · simp [mem_ite_singleton, coordWait_not_mem_clickEv]
  · -- no abort unless the tight loop fires
    intro hor
    rcases har : is_action_repeat st a <;> rcases h3 : last3_all_same st <;>
      simp only [Bool.false_eq_true, Bool.true_eq_false, if_true, if_false,
        ite_true, ite_false] <;>
      first
        | rfl
        | simp_all
  · -- the wait goes right before the click
    rintro ⟨hcr, har, h3⟩
    rw [har, h3, hcr]
    simp only [Bool.false_eq_true, if_true, if_false, ite_true, ite_false]
    set CX := max 0 (min (px + ((((env.jitter st.step).1 : ℕ) : ℤ) - 3)) ((env.lw : ℤ) - 1)) with hCX
    set CY := max 0 (min (py + ((((env.jitter st.step).2 : ℕ) : ℤ) - 3)) ((env.lh : ℤ) - 1)) with hCY
    by_cases hcrit : 3 ≤ updated_loop_count st
    · rw [if_pos hcrit]
      rcases hsvc : env.svcOk
      · exact ⟨[Event.capture (env.shot st.step).1 (env.shot st.step).2,
            Event.criticalHint, Event.repeatActionWarn],
          [Event.sleep (1/10), Event.clickAt CX CY, Event.sleep (3/10), Event.sleep 2],
          by simp, CX, CY, by simp⟩
      · exact ⟨[Event.capture (env.shot st.step).1 (env.shot st.step).2,
            Event.criticalHint, Event.repeatActionWarn],
          [Event.clickAt CX CY, Event.sleep (3/10), Event.sleep 2],
          by simp, CX, CY, by simp⟩
    · rw [if_neg hcrit]
      rcases hsvc : env.svcOk
      · exact ⟨[Event.capture (env.shot st.step).1 (env.shot st.step).2,
            Event.repeatActionWarn],
          [Event.sleep (1/10), Event.clickAt CX CY, Event.sleep (3/10), Event.sleep 2],
          by simp, CX, CY, by simp⟩
      · exact ⟨[Event.capture (env.shot st.step).1 (env.shot st.step).2,
            Event.repeatActionWarn],
          [Event.clickAt CX CY, Event.sleep (3/10), Event.sleep 2],
          by simp, CX, CY, by simp⟩

/-- A planning model that clicks the same point three times but with three
different action descriptions, then reports completion. -/
def envCR : Env :=
  { plans := fun n =>
      if n = 0 then ⟨false, "click", "a", "", "", some [500, 500]⟩
      else if n = 1 then ⟨false, "click", "b", "", "", some [500, 500]⟩
      else if n = 2 then ⟨false, "click", "c", "", "", some [500, 500]⟩
      else ⟨true, "click", "", "", "", none⟩,
    shot := fun _ => (1000, 1000), detect := fun _ => none,
    jitter := fun _ => (3, 3), svcOk := true, lw := 1000, lh := 1000 }

/-- C8 counterexample -- after two steps the recorded coordinates are
[(500, 500), (500, 500)] and step 3's click targets (500, 500) again (within
50 pixels of both), yet the whole run contains no coordinate-repeat wait (no
~2s settle before that click): the soft signal requires the repeated-action
condition as well, which the differing descriptions "a"/"b"/"c" never meet.
The second half of the claim does hold: the repetition does not abort — the
run completes. -/
theorem coord_repeat_alone_no_extra_wait :
    (execute_task envCR 2).2.1 =
      ⟨2, ["a", "b"], ["a", "b"], [(500, 500), (500, 500)], 0⟩ ∧
    is_coord_repeat ⟨2, ["a", "b"], ["a", "b"], [(500, 500), (500, 500)], 0⟩ 500 500 = true ∧
    normalize_to_pixels envCR.lw envCR.lh 500 500 (some 1000) (some 1000) = (500, 500) ∧
    Event.coordRepeatWait ∉ (execute_task envCR 20).2.2 ∧
    countEv isClickEv (execute_task envCR 20).2.2 = 3 ∧
    (execute_task envCR 20).1 = true := by decide

/-- Witness for C8's amended theorem: a state where the new click repeats
both the coordinates and one of the last two action texts, with no tight
loop. -/
theorem step_click_coord_repeat_wait_iff_witness :
    (Event.coordRepeatWait ∈
        (execStep envUC ⟨2, ["x", "click a"], ["x", "click a"],
          [(500, 500), (500, 500)], 0⟩).2.2 ↔
      (is_coord_repeat ⟨2, ["x", "click a"], ["x", "click a"],
          [(500, 500), (500, 500)], 0⟩ 500 500 = true ∧
       is_action_repeat ⟨2, ["x", "click a"], ["x", "click a"],
          [(500, 500), (500, 500)], 0⟩ "click a" = true ∧
       last3_all_same ⟨2, ["x", "click a"], ["x", "click a"],
          [(500, 500), (500, 500)], 0⟩ = false)) ∧
    ((is_action_repeat ⟨2, ["x", "click a"], ["x", "click a"],
          [(500, 500), (500, 500)], 0⟩ "click a" = false ∨
      last3_all_same ⟨2, ["x", "click a"], ["x", "click a"],
          [(500, 500), (500, 500)], 0⟩ = false) →
      (execStep envUC ⟨2, ["x", "click a"], ["x", "click a"],
          [(500, 500), (500, 500)], 0⟩).2.1 = .next) ∧
    ((is_coord_repeat ⟨2, ["x", "click a"], ["x", "click a"],
          [(500, 500), (500, 500)], 0⟩ 500 500 = true ∧
      is_action_repeat ⟨2, ["x", "click a"], ["x", "click a"],
          [(500, 500), (500, 500)], 0⟩ "click a" = true ∧
      last3_all_same ⟨2, ["x", "click a"], ["x", "click a"],
          [(500, 500), (500, 500)], 0⟩ = false) →
      ∃ l1 l2, (execStep envUC ⟨2, ["x", "click a"], ["x", "click a"],
          [(500, 500), (500, 500)], 0⟩).2.2 =
          l1 ++ Event.coordRepeatWait :: Event.sleep 2 :: l2 ∧
        ∃ cx cy, Event.clickAt cx cy ∈ l2) :=
  step_click_coord_repeat_wait_iff envUC
    ⟨2, ["x", "click a"], ["x", "click a"], [(500, 500), (500, 500)], 0⟩
    "click a" "" "" 500 500 500 500 rfl (by decide) (by decide) (by decide)

/-- A plan executed outside the click-with-model-point branch: a `type`, a
`press_key`, or a click resolved by element detection (no point). -/
def nonRecordingPlan (p : Plan) : Prop :=
  p.action_type = "type" ∨ p.action_type = "press_key" ∨ p.point = none

lemma execStep_recent_actions (env : Env) (st : AgentState) :
    (execStep env st).1.recent_actions =
      (planBranches (env.plans st.step) (env.detect st.step) (env.jitter st.step)
        env.svcOk env.lw env.lh (env.shot st.step).1 (env.shot st.step).2 st
        (updated_loop_count st)).recent_actions := rfl

lemma execStep_recent_coordinates (env : Env) (st : AgentState) :
    (execStep env st).1.recent_coordinates =
      (planBranches (env.plans st.step) (env.detect st.step) (env.jitter st.step)
        env.svcOk env.lw env.lh (env.shot st.step).1 (env.shot st.step).2 st
        (updated_loop_count st)).recent_coordinates := rfl

lemma execStep_events (env : Env) (st : AgentState) :
    (execStep env st).2.2 =
      ([Event.capture (env.shot st.step).1 (env.shot st.step).2]
        ++ (if last3_all_same st then [Event.loopWarning] else [])
        ++ (if 3 ≤ updated_loop_count st then [Event.criticalHint] else []))
      ++ (planBranches (env.plans st.step) (env.detect st.step) (env.jitter st.step)
        env.svcOk env.lw env.lh (env.shot st.step).1 (env.shot st.step).2 st
        (updated_loop_count st)).events := rfl

set_option maxHeartbeats 2000000 in
lemma planBranches_non_recording_state (p : Plan) (dr : Option (ℤ × ℤ)) (jit : Fin 7 × Fin 7)
    (svcOk : Bool) (lw lh sw sh : ℕ) (st : AgentState) (loopc : ℕ)
    (hp : nonRecordingPlan p) :
    (planBranches p dr jit svcOk lw lh sw sh st loopc).recent_actions = st.recent_actions ∧
    (planBranches p dr jit svcOk lw lh sw sh st loopc).recent_coordinates =
      st.recent_coordinates := by
  obtain ⟨c, aty, a, t, k, pt⟩ := p
  rcases pt with _ | ⟨_ | ⟨y, _ | ⟨x, _ | ⟨z, zs⟩⟩⟩⟩
  all_goals rcases dr with _ | pq
  all_goals unfold planBranches clickFinish keepHistories
  all_goals dsimp only
  all_goals repeat' split
  all_goals simp_all [nonRecordingPlan]

set_option maxHeartbeats 2000000 in
lemma planBranches_non_recording_events (p : Plan) (dr : Option (ℤ × ℤ)) (jit : Fin 7 × Fin 7)
    (svcOk : Bool) (lw lh sw sh : ℕ) (st : AgentState) (loopc : ℕ)
    (hp : nonRecordingPlan p) (hl : loopc < 4) :
    countEv isLoopGuardEv (planBranches p dr jit svcOk lw lh sw sh st loopc).events = 0 := by
  obtain ⟨c, aty, a, t, k, pt⟩ := p
  rcases pt with _ | ⟨_ | ⟨y, _ | ⟨x, _ | ⟨z, zs⟩⟩⟩⟩
  all_goals rcases dr with _ | pq
  all_goals unfold planBranches clickFinish keepHistories
  all_goals dsimp only
  all_goals repeat' split
  all_goals first
    | omega
    | simp_all [nonRecordingPlan, countEv, isLoopGuardEv]

lemma runAux_non_recording (env : Env) (hp : ∀ n, nonRecordingPlan (env.plans n))
    (fuel : ℕ) :
    ∀ (st : AgentState) (tr : List Event),
      st.recent_actions = [] → st.recent_coordinates = [] → st.loop_count = 0 →
      ((runAux env fuel st tr).2.1.recent_actions = [] ∧
       (runAux env fuel st tr).2.1.recent_coordinates = [] ∧
       (runAux env fuel st tr).2.1.loop_count = 0 ∧
       countEv isLoopGuardEv (runAux env fuel st tr).2.2 = countEv isLoopGuardEv tr) := by
  induction fuel with
  | zero =>
    intro st tr h1 h2 h3
    simp [runAux, h1, h2, h3]
  | succ fuel IH =>
    intro st tr h1 h2 h3
    have hng : updated_loop_count st = 0 := by
      simp [updated_loop_count, h1, h3]
    have hwarn : last3_all_same st = false := by
      simp [last3_all_same, h1]
    have hst := planBranches_non_recording_state (env.plans st.step) (env.detect st.step)
      (env.jitter st.step) env.svcOk env.lw env.lh (env.shot st.step).1 (env.shot st.step).2
      st (updated_loop_count st) (hp st.step)
    have hev := planBranches_non_recording_events (env.plans st.step) (env.detect st.step)
      (env.jitter st.step) env.svcOk env.lw env.lh (env.shot st.step).1 (env.shot st.step).2
      st (updated_loop_count st) (hp st.step) (by omega)
    rcases hE : execStep env st with ⟨st2, o, ev⟩
    have hra : st2.recent_actions = [] := by
      have h := congrArg (fun r => r.1.recent_actions) hE
      simp only at h
      rw [← h, execStep_recent_actions, hst.1, h1]
    have hrc : st2.recent_coordinates = [] := by
      have h := congrArg (fun r => r.1.recent_coordinates) hE
      simp only at h
      rw [← h, execStep_recent_coordinates, hst.2, h2]
    have hlc : st2.loop_count = 0 := by
      have h := congrArg (fun r => r.1.loop_count) hE
      simp only at h
      rw [← h, execStep_loop_count, hng]
    have hevc : countEv isLoopGuardEv ev = 0 := by
      have h := congrArg (fun r => r.2.2) hE
      simp only at h
      rw [← h, execStep_events, countEv_append, hev, hwarn, hng]
      simp [countEv, isLoopGuardEv]
    rcases o with _ | b
    · rw [runAux_next env fuel st st2 ev tr hE]
      have IHr := IH st2 (tr ++ ev) hra hrc hlc
      refine ⟨IHr.1, IHr.2.1, IHr.2.2.1, ?_⟩
      rw [IHr.2.2.2, countEv_append, hevc]
      omega
    · rw [runAux_done env fuel st st2 b ev tr hE]
      exact ⟨hra, hrc, hlc, by rw [countEv_append, hevc]; omega⟩

/-- C10 -- the loop-detection lists `recent_actions`/`recent_coordinates`
are appended to only in the click-with-model-provided-point branch: a single
step whose plan is a type, a press_key, or a click without point leaves both
lists unchanged; consequently, in a run consisting solely of such plans both
lists stay empty, `loop_count` stays 0, and no loop-guard diagnostic (prompt
warnings, repeat-action warning, coordinate-repeat wait, tight-loop or
loop-count abort) ever fires. -/
theorem non_point_actions_never_trigger_loop_checks :
    (∀ (env : Env) (st : AgentState), nonRecordingPlan (env.plans st.step) →
      (execStep env st).1.recent_actions = st.recent_actions ∧
      (execStep env st).1.recent_coordinates = st.recent_coordinates) ∧
    (∀ (env : Env) (m : ℕ), (∀ n, nonRecordingPlan (env.plans n)) →
      (execute_task env m).2.1.recent_actions = [] ∧
      (execute_task env m).2.1.recent_coordinates = [] ∧
      (execute_task env m).2.1.loop_count = 0 ∧
      countEv isLoopGuardEv (execute_task env m).2.2 = 0) := by
  constructor
  · intro env st h
    have hst := planBranches_non_recording_state (env.plans st.step) (env.detect st.step)
      (env.jitter st.step) env.svcOk env.lw env.lh (env.shot st.step).1 (env.shot st.step).2
      st (updated_loop_count st) h
    exact ⟨by rw [execStep_recent_actions, hst.1],
      by rw [execStep_recent_coordinates, hst.2]⟩
  · intro env m h
    have hr := runAux_non_recording env h m initState [] rfl rfl rfl
    exact ⟨hr.1, hr.2.1, hr.2.2.1, by unfold execute_task; rw [hr.2.2.2]; rfl⟩

/-- A run of type, press_key and detection-resolved click actions only. -/
def envTY : Env :=
  { plans := fun n =>
      if n = 0 then ⟨false, "type", "type in the field", "hello", "", none⟩
      else if n = 1 then ⟨false, "press_key", "press enter", "", "enter", none⟩
      else ⟨false, "click", "click the button", "", "", none⟩,
    shot := fun _ => (1000, 1000), detect := fun _ => some (100, 100),
    jitter := fun _ => (3, 3), svcOk := true, lw := 1000, lh := 1000 }

/-- Witness for C10 at a concrete type/press_key/detect-click run. -/
theorem non_point_actions_never_trigger_loop_checks_witness :
    ((execStep envTY initState).1.recent_actions = initState.recent_actions ∧
     (execStep envTY initState).1.recent_coordinates = initState.recent_coordinates) ∧
    ((execute_task envTY 5).2.1.recent_actions = [] ∧
     (execute_task envTY 5).2.1.recent_coordinates = [] ∧
     (execute_task envTY 5).2.1.loop_count = 0 ∧
     countEv isLoopGuardEv (execute_task envTY 5).2.2 = 0) :=
  ⟨non_point_actions_never_trigger_loop_checks.1 envTY initState (Or.inl rfl),
   non_point_actions_never_trigger_loop_checks.2 envTY 5 (fun n => by
     unfold envTY nonRecordingPlan
     dsimp only
     by_cases h0 : n = 0
     · simp [h0]
     · by_cases h1 : n = 1
       · simp [h0, h1]
       · simp [h0, h1])⟩
